import Mathlib

/-!
Shallow embedding of `src/excel_to_AOI.py` (AOI_Generator).

The script converts spreadsheet rows of center points into rectangular
Areas of Interest, written as a KML/KMZ overlay and a shapefile.  Numeric
values are modelled over `ℝ`; `np.cos`/`np.radians` become `Real.cos` and
multiplication by `π / 180`.  Library behaviour the script relies on
(shapely ring closing, pandas indexing, file-system calls) is modelled
explicitly where the claims depend on it, with a comment at each spot.
-/

namespace AOI

/-- `np.radians(x) = x * π / 180` (numpy degrees-to-radians conversion,
used by `km_to_degrees`). -/
noncomputable def radians (x : ℝ) : ℝ := x * Real.pi / 180

/-- `km_to_degrees` (src/excel_to_AOI.py lines 12-18): convert km to degrees
for latitude or longitude.  Latitude: `km / 111`; longitude:
`km / (111 * abs(cos(radians(lat))))`. -/
noncomputable def km_to_degrees (lat km : ℝ) ( is_latitude : Bool) : ℝ :=
  if is_latitude then km / 111
  else km / (111 * |Real.cos (radians lat)|)

/-- Shapely `Polygon`: holds the shell ring handed to its constructor
(src line 35 passes the four corner coordinates). -/
structure Polygon where
  shell : List (ℝ × ℝ)

/-- Modelled library behaviour (shapely): `polygon.exterior.coords` returns
the ring explicitly closed, i.e. the first coordinate repeated at the end
(used at src line 59). -/
def Polygon.exteriorCoords (p : Polygon) : List (ℝ × ℝ) :=
  p.shell ++ p.shell.take 1

/-- `create_rectangle` (src/excel_to_AOI.py lines 21-35): offsets via
`km_to_degrees`, then the four corners top-left, top-right, bottom-right,
bottom-left, wrapped in a shapely `Polygon`. -/
noncomputable def create_rectangle (lat lon width_km height_km : ℝ) : Polygon :=
  let lat_offset := km_to_degrees lat (height_km / 2) true
  let lon_offset := km_to_degrees lat (width_km / 2) false
  Polygon.mk
    [ (lon - lon_offset, lat + lat_offset)
    , (lon + lon_offset, lat + lat_offset)
    , (lon + lon_offset, lat - lat_offset)
    , (lon - lon_offset, lat - lat_offset) ]

/-- One input row of the spreadsheet: columns `CODE`, `CENTER LAT`,
`CENTER LONG` (src lines 51-53; spaces in column names become `_`). -/
structure Row where
  CODE : String
  CENTER_LAT : ℝ
  CENTER_LONG : ℝ

/-- A polygon placemark added by `kml.newpolygon(name=code,
outerboundaryis=coords)` (src line 62); style fields are fixed constants and
are not modelled. -/
structure PolyPlacemark where
  name : String
  outerboundary : List (ℝ × ℝ)

/-- A point placemark added by `kml.newpoint` (src lines 68-69).  The
placemark name interpolates `code`, `lat` and `lon` into a string; the three
components are kept as fields since float formatting is not modelled. -/
structure PointPlacemark where
  code : String
  lat : ℝ
  lon : ℝ
  coords : List (ℝ × ℝ)

/-- The KML document built by `simplekml.Kml()`: the placemarks added to it,
in insertion order. -/
structure Kml where
  polygons : List PolyPlacemark
  points : List PointPlacemark

/-- One entry of the `polygons` list built at src line 77:
`{'CODE': code, 'geometry': rectangle}`. -/
structure ShpRecord where
  CODE : String
  geometry : Polygon

/-- The in-memory content produced by `generate_kml` (src lines 50-83,
the per-row loop): the KML document and the `polygons` list returned for
shapefile creation.  Each row appends exactly one polygon placemark, one
point placemark and one record, so the loop is a `List.map` per output. -/
noncomputable def generate_kml (df : List Row) (aoi_width_km aoi_height_km : ℝ) :
    Kml × List ShpRecord :=
  ( { polygons := df.map fun row =>
        { name := row.CODE
        , outerboundary :=
            (create_rectangle row.CENTER_LAT row.CENTER_LONG
              aoi_width_km aoi_height_km).exteriorCoords }
    , points := df.map fun row =>
        { code := row.CODE
        , lat := row.CENTER_LAT
        , lon := row.CENTER_LONG
        , coords := [(row.CENTER_LONG, row.CENTER_LAT)] } }
  , df.map fun row =>
      { CODE := row.CODE
      , geometry :=
          create_rectangle row.CENTER_LAT row.CENTER_LONG
            aoi_width_km aoi_height_km } )

/-- The vector dataset built by `generate_shapefile` (src lines 94-100):
`gpd.GeoDataFrame(polygons)` then `set_index('CODE')` and
`crs = 'EPSG:4326'`. -/
structure GeoDataFrame where
  index_name : String
  records : List (String × Polygon)
  crs : String

/-- `generate_shapefile`, in-memory part (src lines 94-100).  Modelled
library behaviour (pandas): `set_index('CODE', inplace=True)` makes `CODE`
the index but keeps every row; duplicate index values are retained, no row
is dropped or overwritten (`verify_integrity` defaults to `False`). -/
def generate_shapefile_gdf (polygons : List ShpRecord) : GeoDataFrame :=
  { index_name := "CODE"
  , records := polygons.map fun r => (r.CODE, r.geometry)
  , crs := "EPSG:4326" }

/-- Arithmetic mean of a list of planar points, componentwise. -/
noncomputable def centroid (c : List (ℝ × ℝ)) : ℝ × ℝ :=
  ((c.map Prod.fst).sum / c.length, (c.map Prod.snd).sum / c.length)

/-- Twice the signed shoelace area of a ring given without the closing
point (each vertex paired with its cyclic successor). -/
noncomputable def shoelace2 (c : List (ℝ × ℝ)) : ℝ :=
  ((c.zip (c.drop 1 ++ c.take 1)).map fun pq =>
    pq.1.1 * pq.2.2 - pq.2.1 * pq.1.2).sum

/-- The closed quadrilateral `p0 p1 p2 p3` is non-self-intersecting:
opposite edges are disjoint and adjacent edges meet exactly in their shared
vertex. -/
def SimpleQuad (p0 p1 p2 p3 : ℝ × ℝ) : Prop :=
  Disjoint (segment ℝ p0 p1) (segment ℝ p2 p3) ∧
  Disjoint (segment ℝ p1 p2) (segment ℝ p3 p0) ∧
  segment ℝ p0 p1 ∩ segment ℝ p1 p2 = {p1} ∧
  segment ℝ p1 p2 ∩ segment ℝ p2 p3 = {p2} ∧
  segment ℝ p2 p3 ∩ segment ℝ p3 p0 = {p3} ∧
  segment ℝ p3 p0 ∩ segment ℝ p0 p1 = {p0}

lemma seg_fst_eq {a b p : ℝ × ℝ} {c : ℝ} (ha : a.1 = c) (hb : b.1 = c)
    (hp : p ∈ segment ℝ a b) : p.1 = c := by
  obtain ⟨u, v, hu, hv, huv, rfl⟩ := hp
  simp only [Prod.fst_add, Prod.smul_fst, smul_eq_mul, ha, hb]
  rw [← add_mul, huv, one_mul]

lemma seg_snd_eq {a b p : ℝ × ℝ} {c : ℝ} (ha : a.2 = c) (hb : b.2 = c)
    (hp : p ∈ segment ℝ a b) : p.2 = c := by
  obtain ⟨u, v, hu, hv, huv, rfl⟩ := hp
  simp only [Prod.snd_add, Prod.smul_snd, smul_eq_mul, ha, hb]
  rw [← add_mul, huv, one_mul]

lemma simpleQuad_rect {x1 x2 y1 y2 : ℝ} (hx : x1 < x2) (hy : y1 < y2) :
    SimpleQuad (x1, y2) (x2, y2) (x2, y1) (x1, y1) := by
  have htop : ∀ p ∈ segment ℝ ((x1, y2) : ℝ × ℝ) (x2, y2), p.2 = y2 :=
    fun p hp => seg_snd_eq rfl rfl hp
  have hright : ∀ p ∈ segment ℝ ((x2, y2) : ℝ × ℝ) (x2, y1), p.1 = x2 :=
    fun p hp => seg_fst_eq rfl rfl hp
  have hbot : ∀ p ∈ segment ℝ ((x2, y1) : ℝ × ℝ) (x1, y1), p.2 = y1 :=
    fun p hp => seg_snd_eq rfl rfl hp
  have hleft : ∀ p ∈ segment ℝ ((x1, y1) : ℝ × ℝ) (x1, y2), p.1 = x1 :=
    fun p hp => seg_fst_eq rfl rfl hp
  refine ⟨?_, ?_, ?_, ?_, ?_, ?_⟩
  · exact Set.disjoint_left.mpr fun p hp hp' =>
      absurd (htop p hp ▸ hbot p hp') (by intro h; linarith)
  · exact Set.disjoint_left.mpr fun p hp hp' =>
      absurd (hright p hp ▸ hleft p hp') (by intro h; linarith)
  · ext p
    constructor
    · rintro ⟨hp, hp'⟩
      have h2 := htop p hp
      have h1 := hright p hp'
      simp only [Set.mem_singleton_iff, Prod.ext_iff]
      exact ⟨h1, h2⟩
    · rintro rfl
      exact ⟨right_mem_segment ℝ _ _, left_mem_segment ℝ _ _⟩
  · ext p
    constructor
    · rintro ⟨hp, hp'⟩
      have h1 := hright p hp
      have h2 := hbot p hp'
      simp only [Set.mem_singleton_iff, Prod.ext_iff]
      exact ⟨h1, h2⟩
    · rintro rfl
      exact ⟨right_mem_segment ℝ _ _, left_mem_segment ℝ _ _⟩
  · ext p
    constructor
    · rintro ⟨hp, hp'⟩
      have h2 := hbot p hp
      have h1 := hleft p hp'
      simp only [Set.mem_singleton_iff, Prod.ext_iff]
      exact ⟨h1, h2⟩
    · rintro rfl
      exact ⟨right_mem_segment ℝ _ _, left_mem_segment ℝ _ _⟩
  · ext p
    constructor
    · rintro ⟨hp, hp'⟩
      have h1 := hleft p hp
      have h2 := htop p hp'
      simp only [Set.mem_singleton_iff, Prod.ext_iff]
      exact ⟨h1, h2⟩
    · rintro rfl
      exact ⟨right_mem_segment ℝ _ _, left_mem_segment ℝ _ _⟩

/-- For `|lat| < 90` the cosine of `radians lat` is strictly positive. -/
lemma cos_radians_pos {lat : ℝ} (h : |lat| < 90) :
    0 < Real.cos (radians lat) := by
  have hpi := Real.pi_pos
  have h1 : -90 < lat := by cases abs_lt.mp h with | intro a b => linarith
  have h2 : lat < 90 := (abs_lt.mp h).2
  refine Real.cos_pos_of_mem_Ioo ⟨?_, ?_⟩
  · show -(Real.pi / 2) < lat * Real.pi / 180
    nlinarith
  · show lat * Real.pi / 180 < Real.pi / 2
    nlinarith

/-- For `|lat| < 90` and `0 < km` the longitude branch of `km_to_degrees`
is strictly positive. -/
lemma lon_offset_pos {lat km : ℝ} (h : |lat| < 90) (hkm : 0 < km) :
    0 < km_to_degrees lat km false := by
  have hc := cos_radians_pos h
  have : 0 < 111 * |Real.cos (radians lat)| := by
    rw [abs_of_pos hc]; positivity
  rw [show km_to_degrees lat km false = km / (111 * |Real.cos (radians lat)|)
    from rfl]
  exact div_pos hkm this

/-- C1: for every center latitude, width and height, the latitude half-offset
is `(height_km / 2) / 111`, the longitude half-offset is
`(width_km / 2) / (111 * |cos(radians(lat))|)`, and the four corners of
`create_rectangle` are the center coordinates plus/minus these offsets. -/
theorem C1_offsets_and_corners (lat lon width_km height_km : ℝ) :
    km_to_degrees lat (height_km / 2) true = (height_km / 2) / 111 ∧
    km_to_degrees lat (width_km / 2) false =
      (width_km / 2) / (111 * |Real.cos (lat * Real.pi / 180)|) ∧
    (create_rectangle lat lon width_km height_km).shell =
      [ (lon - (width_km / 2) / (111 * |Real.cos (lat * Real.pi / 180)|),
         lat + (height_km / 2) / 111)
      , (lon + (width_km / 2) / (111 * |Real.cos (lat * Real.pi / 180)|),
         lat + (height_km / 2) / 111)
      , (lon + (width_km / 2) / (111 * |Real.cos (lat * Real.pi / 180)|),
         lat - (height_km / 2) / 111)
      , (lon - (width_km / 2) / (111 * |Real.cos (lat * Real.pi / 180)|),
         lat - (height_km / 2) / 111) ] := by
  refine ⟨rfl, rfl, ?_⟩
  simp [create_rectangle, km_to_degrees, radians]

/-- C2: for `|lat| < 90` and positive width and height, `create_rectangle`
returns exactly 4 pairwise-distinct corners forming a closed,
non-self-intersecting quadrilateral whose centroid is the input center
`(lon, lat)` (exact equality in the real-number model). -/
theorem C2_four_corners_simple_centroid (lat lon width_km height_km : ℝ)
    (h1 : |lat| < 90) (h2 : 0 < width_km) (h3 : 0 < height_km) :
    ∃ p0 p1 p2 p3 : ℝ × ℝ,
      (create_rectangle lat lon width_km height_km).shell = [p0, p1, p2, p3] ∧
      List.Pairwise (fun a b => a ≠ b) [p0, p1, p2, p3] ∧
      SimpleQuad p0 p1 p2 p3 ∧
      centroid [p0, p1, p2, p3] = (lon, lat) := by
  set ε := km_to_degrees lat (height_km / 2) true with hεdef
  set δ := km_to_degrees lat (width_km / 2) false with hδdef
  have hε : 0 < ε := by
    rw [hεdef, show km_to_degrees lat (height_km / 2) true = (height_km / 2) / 111
      from rfl]
    positivity
  have hδ : 0 < δ := lon_offset_pos h1 (by positivity)
  refine ⟨(lon - δ, lat + ε), (lon + δ, lat + ε), (lon + δ, lat - ε),
    (lon - δ, lat - ε), rfl, ?_, simpleQuad_rect (by linarith) (by linarith), ?_⟩
  · have d1 : ((lon - δ, lat + ε) : ℝ × ℝ) ≠ (lon + δ, lat + ε) := by
      intro hEq; have := congrArg Prod.fst hEq; simp only at this; linarith
    have d2 : ((lon - δ, lat + ε) : ℝ × ℝ) ≠ (lon + δ, lat - ε) := by
      intro hEq; have := congrArg Prod.fst hEq; simp only at this; linarith
    have d3 : ((lon - δ, lat + ε) : ℝ × ℝ) ≠ (lon - δ, lat - ε) := by
      intro hEq; have := congrArg Prod.snd hEq; simp only at this; linarith
    have d4 : ((lon + δ, lat + ε) : ℝ × ℝ) ≠ (lon + δ, lat - ε) := by
      intro hEq; have := congrArg Prod.snd hEq; simp only at this; linarith
    have d5 : ((lon + δ, lat + ε) : ℝ × ℝ) ≠ (lon - δ, lat - ε) := by
      intro hEq; have := congrArg Prod.fst hEq; simp only at this; linarith
    have d6 : ((lon + δ, lat - ε) : ℝ × ℝ) ≠ (lon - δ, lat - ε) := by
      intro hEq; have := congrArg Prod.fst hEq; simp only at this; linarith
    refine List.pairwise_cons.mpr ⟨?_, List.pairwise_cons.mpr ⟨?_,
      List.pairwise_cons.mpr ⟨?_, List.pairwise_singleton _ _⟩⟩⟩
    · intro q hq
      simp only [List.mem_cons, List.not_mem_nil, or_false] at hq
      rcases hq with rfl | rfl | rfl
      · exact d1
      · exact d2
      · exact d3
    · intro q hq
      simp only [List.mem_cons, List.not_mem_nil, or_false] at hq
      rcases hq with rfl | rfl
      · exact d4
      · exact d5
    · intro q hq
      simp only [List.mem_cons, List.not_mem_nil, or_false] at hq
      rcases hq with rfl
      exact d6
  · simp only [centroid, List.map_cons, List.map_nil, List.sum_cons,
      List.sum_nil, List.length_cons, List.length_nil, Prod.mk.injEq]
    norm_num
    constructor <;> ring

/-- C2 witness: the theorem instantiated at center (13, 77.5) with an
8 km by 8 km AOI. -/
theorem C2_four_corners_simple_centroid_witness :
    |(13 : ℝ)| < 90 ∧ (0 : ℝ) < 8 ∧
    ∃ p0 p1 p2 p3 : ℝ × ℝ,
      (create_rectangle 13 77.5 8 8).shell = [p0, p1, p2, p3] ∧
      List.Pairwise (fun a b => a ≠ b) [p0, p1, p2, p3] ∧
      SimpleQuad p0 p1 p2 p3 ∧
      centroid [p0, p1, p2, p3] = (77.5, 13) := by
  have habs : |(13 : ℝ)| < 90 := by
    rw [abs_of_pos (by norm_num : (0 : ℝ) < 13)]; norm_num
  exact ⟨habs, by norm_num,
    C2_four_corners_simple_centroid 13 77.5 8 8 habs (by norm_num) (by norm_num)⟩

/-- C3: for positive dimensions and non-polar latitude, the corners of
`create_rectangle` come in the order top-left, top-right, bottom-right,
bottom-left (clockwise from the north-west corner), and `exterior.coords`
serializes the ring closed, repeating the first corner at the end. -/
theorem C3_corner_order_and_closed_ring (lat lon width_km height_km : ℝ)
    (h1 : |lat| < 90) (h2 : 0 < width_km) (h3 : 0 < height_km) :
    ∃ x1 x2 y1 y2 : ℝ, x1 < x2 ∧ y1 < y2 ∧
      (create_rectangle lat lon width_km height_km).shell =
        [(x1, y2), (x2, y2), (x2, y1), (x1, y1)] ∧
      (create_rectangle lat lon width_km height_km).exteriorCoords =
        [(x1, y2), (x2, y2), (x2, y1), (x1, y1), (x1, y2)] := by
  set ε := km_to_degrees lat (height_km / 2) true with hεdef
  set δ := km_to_degrees lat (width_km / 2) false with hδdef
  have hε : 0 < ε := by
    rw [hεdef, show km_to_degrees lat (height_km / 2) true = (height_km / 2) / 111
      from rfl]
    positivity
  have hδ : 0 < δ := lon_offset_pos h1 (by positivity)
  exact ⟨lon - δ, lon + δ, lat - ε, lat + ε, by linarith, by linarith, rfl, rfl⟩

/-- C3 witness: the theorem instantiated at center (13, 77.5) with an
8 km by 8 km AOI. -/
theorem C3_corner_order_and_closed_ring_witness :
    |(13 : ℝ)| < 90 ∧ (0 : ℝ) < 8 ∧
    ∃ x1 x2 y1 y2 : ℝ, x1 < x2 ∧ y1 < y2 ∧
      (create_rectangle 13 77.5 8 8).shell =
        [(x1, y2), (x2, y2), (x2, y1), (x1, y1)] ∧
      (create_rectangle 13 77.5 8 8).exteriorCoords =
        [(x1, y2), (x2, y2), (x2, y1), (x1, y1), (x1, y2)] := by
  have habs : |(13 : ℝ)| < 90 := by
    rw [abs_of_pos (by norm_num : (0 : ℝ) < 13)]; norm_num
  exact ⟨habs, by norm_num,
    C3_corner_order_and_closed_ring 13 77.5 8 8 habs (by norm_num) (by norm_num)⟩

/-- C5: at a pole (`|lat| = 90`) the longitude divisor
`111 * |cos(radians(lat))|` is exactly zero, so the longitude branch of
`km_to_degrees` divides by zero; under the total real division of the model
this yields the junk value `0`, and no guard in `km_to_degrees` prevents
it. -/
theorem C5_pole_divisor_zero (lat km : ℝ) (h : |lat| = 90) :
    111 * |Real.cos (radians lat)| = 0 ∧ km_to_degrees lat km false = 0 := by
  have hcos : Real.cos (radians lat) = 0 := by
    rcases (abs_eq (by norm_num : (0 : ℝ) ≤ 90)).mp h with rfl | rfl
    · rw [radians, show (90 : ℝ) * Real.pi / 180 = Real.pi / 2 by ring]
      exact Real.cos_pi_div_two
    · rw [radians, show (-90 : ℝ) * Real.pi / 180 = -(Real.pi / 2) by ring,
        Real.cos_neg]
      exact Real.cos_pi_div_two
  refine ⟨by rw [hcos]; simp, ?_⟩
  rw [show km_to_degrees lat km false = km / (111 * |Real.cos (radians lat)|)
    from rfl, hcos]
  simp

/-- C5 witness: the theorem instantiated at the north pole with km = 4. -/
theorem C5_pole_divisor_zero_witness :
    |(90 : ℝ)| = 90 ∧
    (111 * |Real.cos (radians 90)| = 0 ∧ km_to_degrees 90 4 false = 0) := by
  have habs : |(90 : ℝ)| = 90 := abs_of_pos (by norm_num)
  exact ⟨habs, C5_pole_divisor_zero 90 4 habs⟩

/-- `radians` of an absolute value is the absolute value of `radians`. -/
lemma radians_abs (l : ℝ) : radians |l| = |radians l| := by
  rw [radians, radians, abs_div, abs_mul, abs_of_pos Real.pi_pos,
    abs_of_nonneg (by norm_num : (0 : ℝ) ≤ 180)]

/-- For `|lat| < 90`, `|cos (radians lat)| = cos (radians |lat|)`. -/
lemma abs_cos_radians {lat : ℝ} (h : |lat| < 90) :
    |Real.cos (radians lat)| = Real.cos (radians |lat|) := by
  rw [radians_abs, Real.cos_abs, abs_of_pos (cos_radians_pos h)]

/-- C6: holding the width fixed and positive, the longitude half-offset
`km_to_degrees lat (width_km / 2) false` is strictly increasing in `|lat|`
on `[0, 90)`. -/
theorem C6_lon_offset_strictly_increasing (lat1 lat2 width_km : ℝ)
    (_h0 : 0 ≤ |lat1|) (h12 : |lat1| < |lat2|) (h2 : |lat2| < 90)
    (hw : 0 < width_km) :
    km_to_degrees lat1 (width_km / 2) false <
      km_to_degrees lat2 (width_km / 2) false := by
  have h1 : |lat1| < 90 := h12.trans h2
  have hpi := Real.pi_pos
  have hb1 : radians |lat1| ∈ Set.Icc 0 Real.pi := by
    constructor
    · rw [radians]; positivity
    · rw [radians]; nlinarith [abs_nonneg lat1]
  have hb2 : radians |lat2| ∈ Set.Icc 0 Real.pi := by
    constructor
    · rw [radians]; positivity
    · rw [radians]; nlinarith [abs_nonneg lat2]
  have hrlt : radians |lat1| < radians |lat2| := by
    rw [radians, radians]
    have : |lat1| * Real.pi < |lat2| * Real.pi := by nlinarith
    linarith
  have hcc : Real.cos (radians |lat2|) < Real.cos (radians |lat1|) :=
    Real.strictAntiOn_cos hb1 hb2 hrlt
  have hc2pos : 0 < Real.cos (radians |lat2|) :=
    cos_radians_pos (show |(|lat2|)| < 90 by rwa [abs_abs])
  rw [show km_to_degrees lat1 (width_km / 2) false =
      (width_km / 2) / (111 * |Real.cos (radians lat1)|) from rfl,
    show km_to_degrees lat2 (width_km / 2) false =
      (width_km / 2) / (111 * |Real.cos (radians lat2)|) from rfl,
    abs_cos_radians h1, abs_cos_radians h2]
  exact div_lt_div_of_pos_left (by positivity) (by positivity)
    (by nlinarith)

/-- C6 witness: the theorem instantiated at latitudes 0 and 60 with an
8 km width. -/
theorem C6_lon_offset_strictly_increasing_witness :
    0 ≤ |(0 : ℝ)| ∧ |(0 : ℝ)| < |(60 : ℝ)| ∧ |(60 : ℝ)| < 90 ∧ (0 : ℝ) < 8 ∧
    km_to_degrees 0 (8 / 2) false < km_to_degrees 60 (8 / 2) false := by
  have h60 : |(60 : ℝ)| = 60 := abs_of_pos (by norm_num)
  have h0 : |(0 : ℝ)| = 0 := abs_zero
  refine ⟨by rw [h0], by rw [h0, h60]; norm_num, by rw [h60]; norm_num,
    by norm_num, ?_⟩
  exact C6_lon_offset_strictly_increasing 0 60 8 (by rw [h0])
    (by rw [h0, h60]; norm_num) (by rw [h60]; norm_num) (by norm_num)

/-- Shoelace value of an axis-aligned rectangle ring. -/
lemma shoelace2_rect (x1 x2 y1 y2 : ℝ) :
    shoelace2 [(x1, y2), (x2, y2), (x2, y1), (x1, y1)] =
      2 * (x1 - x2) * (y2 - y1) := by
  simp only [shoelace2, List.drop, List.take, List.cons_append, List.nil_append,
    List.zip_cons_cons, List.zip_nil_right, List.map_cons, List.map_nil,
    List.sum_cons, List.sum_nil]
  ring

/-- C8: with zero width or zero height (other inputs arbitrary),
`create_rectangle` still returns a 4-corner polygon — no error is raised —
and the polygon is degenerate: its shoelace area is zero. -/
theorem C8_zero_dimension_degenerate (lat lon width_km height_km : ℝ)
    (h : width_km = 0 ∨ height_km = 0) :
    (create_rectangle lat lon width_km height_km).shell.length = 4 ∧
    shoelace2 (create_rectangle lat lon width_km height_km).shell = 0 := by
  refine ⟨rfl, ?_⟩
  rw [show (create_rectangle lat lon width_km height_km).shell =
      [ (lon - km_to_degrees lat (width_km / 2) false,
         lat + km_to_degrees lat (height_km / 2) true)
      , (lon + km_to_degrees lat (width_km / 2) false,
         lat + km_to_degrees lat (height_km / 2) true)
      , (lon + km_to_degrees lat (width_km / 2) false,
         lat - km_to_degrees lat (height_km / 2) true)
      , (lon - km_to_degrees lat (width_km / 2) false,
         lat - km_to_degrees lat (height_km / 2) true) ] from rfl,
    shoelace2_rect]
  rcases h with rfl | rfl
  · have hD : km_to_degrees lat ((0 : ℝ) / 2) false = 0 := by
      rw [show km_to_degrees lat ((0 : ℝ) / 2) false =
        ((0 : ℝ) / 2) / (111 * |Real.cos (radians lat)|) from rfl]
      norm_num
    rw [hD]; ring
  · have hE : km_to_degrees lat ((0 : ℝ) / 2) true = 0 := by
      rw [show km_to_degrees lat ((0 : ℝ) / 2) true = ((0 : ℝ) / 2) / 111
        from rfl]
      norm_num
    rw [hE]; ring

/-- C8 witness: the theorem instantiated at center (13, 77.5) with zero
width and 8 km height. -/
theorem C8_zero_dimension_degenerate_witness :
    ((0 : ℝ) = 0 ∨ (8 : ℝ) = 0) ∧
    ((create_rectangle 13 77.5 0 8).shell.length = 4 ∧
     shoelace2 (create_rectangle 13 77.5 0 8).shell = 0) :=
  ⟨Or.inl rfl, C8_zero_dimension_degenerate 13 77.5 0 8 (Or.inl rfl)⟩

/-- C10: the longitude offset is even in the latitude (the formula takes the
absolute value of the cosine), and the rectangle for center `(-lat, lon)` is
the mirror image about the equator of the rectangle for `(lat, lon)`: its
corner list is the latitude-negated corner list traversed in reverse. -/
theorem C10_equator_mirror (lat lon width_km height_km km : ℝ) :
    km_to_degrees (-lat) km false = km_to_degrees lat km false ∧
    (create_rectangle (-lat) lon width_km height_km).shell =
      ((create_rectangle lat lon width_km height_km).shell.map
        (fun p => (p.1, -p.2))).reverse := by
  have hc : ∀ x : ℝ, Real.cos (radians (-x)) = Real.cos (radians x) := by
    intro x
    rw [radians, radians, show -x * Real.pi / 180 = -(x * Real.pi / 180) by ring,
      Real.cos_neg]
  have hD : ∀ x : ℝ, km_to_degrees (-lat) x false = km_to_degrees lat x false := by
    intro x
    rw [show km_to_degrees (-lat) x false =
        x / (111 * |Real.cos (radians (-lat))|) from rfl,
      show km_to_degrees lat x false =
        x / (111 * |Real.cos (radians lat)|) from rfl, hc]
  refine ⟨hD km, ?_⟩
  rw [show (create_rectangle (-lat) lon width_km height_km).shell =
      [ (lon - km_to_degrees (-lat) (width_km / 2) false,
         -lat + km_to_degrees (-lat) (height_km / 2) true)
      , (lon + km_to_degrees (-lat) (width_km / 2) false,
         -lat + km_to_degrees (-lat) (height_km / 2) true)
      , (lon + km_to_degrees (-lat) (width_km / 2) false,
         -lat - km_to_degrees (-lat) (height_km / 2) true)
      , (lon - km_to_degrees (-lat) (width_km / 2) false,
         -lat - km_to_degrees (-lat) (height_km / 2) true) ] from rfl,
    show (create_rectangle lat lon width_km height_km).shell =
      [ (lon - km_to_degrees lat (width_km / 2) false,
         lat + km_to_degrees lat (height_km / 2) true)
      , (lon + km_to_degrees lat (width_km / 2) false,
         lat + km_to_degrees lat (height_km / 2) true)
      , (lon + km_to_degrees lat (width_km / 2) false,
         lat - km_to_degrees lat (height_km / 2) true)
      , (lon - km_to_degrees lat (width_km / 2) false,
         lat - km_to_degrees lat (height_km / 2) true) ] from rfl,
    hD]
  have hE : km_to_degrees (-lat) (height_km / 2) true =
      km_to_degrees lat (height_km / 2) true := rfl
  rw [hE]
  simp only [List.map_cons, List.map_nil, List.reverse_cons, List.reverse_nil,
    List.nil_append, List.cons_append, List.cons.injEq, Prod.mk.injEq]
  refine ⟨⟨trivial, by ring⟩, ⟨trivial, by ring⟩, ⟨trivial, by ring⟩,
    ⟨trivial, by ring⟩, trivial⟩

/-- C7: per input row, in input order, `generate_kml` emits exactly one
polygon placemark named by the row's code and one center point placemark,
and hands the vector writer exactly one record per row keyed by the code;
in particular two rows yield 2 polygon placemarks, 2 point placemarks and
2 records. -/
theorem C7_one_feature_per_row (df : List Row) (aoi_width_km aoi_height_km : ℝ) :
    (generate_kml df aoi_width_km aoi_height_km).1.polygons.length = df.length ∧
    (generate_kml df aoi_width_km aoi_height_km).1.points.length = df.length ∧
    (generate_kml df aoi_width_km aoi_height_km).1.polygons.map
      PolyPlacemark.name = df.map Row.CODE ∧
    (generate_kml df aoi_width_km aoi_height_km).1.points.map
      PointPlacemark.code = df.map Row.CODE ∧
    (generate_kml df aoi_width_km aoi_height_km).2.map ShpRecord.CODE =
      df.map Row.CODE ∧
    (generate_shapefile_gdf
      (generate_kml df aoi_width_km aoi_height_km).2).records.length =
      df.length := by
  refine ⟨by simp [generate_kml], by simp [generate_kml], ?_, ?_, ?_, ?_⟩
  · simp [generate_kml, List.map_map, Function.comp]
  · simp [generate_kml, List.map_map, Function.comp]
  · simp [generate_kml, List.map_map, Function.comp]
  · simp [generate_shapefile_gdf, generate_kml]

/-- C4 counterexample: two rows sharing the code "X" produce a
CODE-indexed dataset with two records, not one — nothing is collapsed or
overwritten. -/
theorem C4_counterexample :
    (generate_shapefile_gdf
      (generate_kml [Row.mk "X" 10 20, Row.mk "X" 30 40] 8 8).2).records.length
      ≠ 1 := by
  norm_num [generate_shapefile_gdf, generate_kml]

/-- C4 amended: pandas `set_index('CODE')` keeps duplicate index values, so
the CODE-indexed dataset retains one record per input row in input order,
including every row of a duplicated code; no entry overwrites another. -/
theorem C4_amended_duplicates_retained (polygons : List ShpRecord) :
    (generate_shapefile_gdf polygons).records.length = polygons.length ∧
    (generate_shapefile_gdf polygons).records.map Prod.fst =
      polygons.map ShpRecord.CODE := by
  refine ⟨by simp [generate_shapefile_gdf], ?_⟩
  simp [generate_shapefile_gdf, List.map_map, Function.comp]

/-- File-system state visible to the script: the directories and files
that exist. -/
structure FS where
  dirs : List String
  files : List String

/-- Write a file at `path` (behaviour of `kml.save` and of each shapefile
companion-file write): the file is created, or silently overwritten when it
already exists — the call never fails on an existing file. -/
def FS.write (fs : FS) (path : String) : FS :=
  { fs with files := if path ∈ fs.files then fs.files else path :: fs.files }

/-- File-system effect of `generate_kml` (src lines 41-44 and 79-81):
`save_dir = "./AOI_Files"` is created with `os.makedirs` when it does not
exist, then the KML file is saved into it. -/
def generate_kml_fs (fs : FS) (file_name : String) : FS :=
  let save_dir := "./AOI_Files"
  let fs1 : FS :=
    if save_dir ∈ fs.dirs then fs else { fs with dirs := save_dir :: fs.dirs }
  fs1.write (save_dir ++ "/" ++ file_name ++ "_AOIs_with_centers.kml")

/-- File-system effect of `generate_shapefile` (src lines 102-105): no
directory-creation call appears in it.  Modelled library behaviour
(`gdf.to_file`, GDAL shapefile driver): writes the four companion files
when the target directory exists and fails when it does not. -/
def generate_shapefile_fs (fs : FS) (file_name : String) : Except String FS :=
  let shapefile_dir := "./AOI_Files"
  if shapefile_dir ∈ fs.dirs then
    Except.ok ((((fs.write
      (shapefile_dir ++ "/" ++ file_name ++ ".shp")).write
      (shapefile_dir ++ "/" ++ file_name ++ ".shx")).write
      (shapefile_dir ++ "/" ++ file_name ++ ".dbf")).write
      (shapefile_dir ++ "/" ++ file_name ++ ".prj"))
  else Except.error "no such file or directory"

/-- C9 counterexample: on a file system where `./AOI_Files` is absent, the
vector writer does not create it — it fails instead of creating the
directory, refuting the claim that both writers create the output
directory when absent. -/
theorem C9_counterexample :
    generate_shapefile_fs (FS.mk [] []) "test" =
      Except.error "no such file or directory" := by
  rfl

/-- C9 amended: only the overlay writer creates `./AOI_Files` when absent;
the vector writer never creates a directory — a successful run leaves the
directory list unchanged, and it fails when the directory is missing.
Existing files at the written paths are overwritten without warning. -/
theorem C9_amended_only_overlay_creates_dir (fs : FS) (file_name : String) :
    "./AOI_Files" ∈ (generate_kml_fs fs file_name).dirs ∧
    (∀ fs', generate_shapefile_fs fs file_name = Except.ok fs' →
      fs'.dirs = fs.dirs) ∧
    ("./AOI_Files" ∉ fs.dirs →
      generate_shapefile_fs fs file_name =
        Except.error "no such file or directory") := by
  refine ⟨?_, ?_, ?_⟩
  · by_cases hmem : "./AOI_Files" ∈ fs.dirs
    · simp [generate_kml_fs, FS.write, hmem]
    · simp [generate_kml_fs, FS.write, hmem]
  · intro fs' hok
    by_cases hmem : "./AOI_Files" ∈ fs.dirs
    · simp only [generate_shapefile_fs, if_pos hmem, Except.ok.injEq] at hok
      rw [← hok]
      simp [FS.write]
    · simp [generate_shapefile_fs, hmem] at hok
  · intro hmem
    simp [generate_shapefile_fs, hmem]

/-- C9 amended witness: the theorem applied on an empty file system (the
overlay writer creates the directory; the vector writer fails) and on a
file system already holding `./AOI_Files` (the vector writer succeeds
without touching the directory list). -/
theorem C9_amended_only_overlay_creates_dir_witness :
    "./AOI_Files" ∈ (generate_kml_fs (FS.mk [] []) "t").dirs ∧
    (FS.mk ["./AOI_Files"]
      ["./AOI_Files/t.prj", "./AOI_Files/t.dbf", "./AOI_Files/t.shx",
       "./AOI_Files/t.shp"]).dirs = (FS.mk ["./AOI_Files"] []).dirs ∧
    generate_shapefile_fs (FS.mk [] []) "t" =
      Except.error "no such file or directory" :=
  ⟨(C9_amended_only_overlay_creates_dir (FS.mk [] []) "t").1,
   (C9_amended_only_overlay_creates_dir (FS.mk ["./AOI_Files"] []) "t").2.1
     _ rfl,
   (C9_amended_only_overlay_creates_dir (FS.mk [] []) "t").2.2
     (by simp)⟩

end AOI
